import Mathlib

/-!
Verification of the core agent loop, decision refinement, element
resolution, oracle-response validation and session gating of the
ai-ui-capture repository, as a shallow embedding in Lean.

Modelling conventions, applied throughout:
* JavaScript strings are Lean `String`; `includes` is the (case
  sensitive) substring test `strContains`, and a case-insensitive
  regex test of a literal pattern is `ciContains`.
* JavaScript numbers are `Int` (all numbers the modelled code
  manipulates are JSON integers; JSON has no NaN or infinities).
* Fallible external operations (the browser page, the network) are
  modelled as `Except`-valued inputs, so a try/catch becomes a match
  on the `Except`; wall-clock timestamps, logging and screenshots are
  side effects that never influence the modelled control flow and are
  not modelled.
* In-place mutation of the decision object is modelled functionally:
  the refiner returns the updated record.
-/

/-! ## String helpers (JS semantics) -/

/-- Lower-case every character (JS toLowerCase over the modelled alphabet). -/
def lowerStr (s : String) : String := String.mk (s.data.map Char.toLower)

/-- Upper-case every character (JS toUpperCase over the modelled alphabet). -/
def upperStr (s : String) : String := String.mk (s.data.map Char.toUpper)

/-- The first list starts with the second list. -/
def chStarts : List Char → List Char → Bool
  | [], _ => true
  | _ :: _, [] => false
  | a :: as, b :: bs => a == b && chStarts as bs

/-- The second list contains the first list as a contiguous run. -/
def chContains (pat : List Char) : List Char → Bool
  | [] => pat.isEmpty
  | c :: rest => chStarts pat (c :: rest) || chContains pat rest

/-- JS String.prototype.includes (case sensitive). -/
def strContains (s pat : String) : Bool := chContains pat.data s.data

/-- Case-insensitive substring test: the test of an unanchored literal
regex with the i flag. -/
def ciContains (s pat : String) : Bool := strContains (lowerStr s) (lowerStr pat)

/-- Case-insensitive whole-string equality: the test of a fully anchored
literal regex with the i flag. -/
def ciEquals (s pat : String) : Bool := lowerStr s == lowerStr pat

/-- Case-insensitive prefix test: the test of a start-anchored literal
regex with the i flag. -/
def ciStartsWith (s pat : String) : Bool := chStarts (lowerStr pat).data (lowerStr s).data

/-! ## Oracle response validation (GPT4Client.validateResponse) -/

/-- A JSON scalar as it may arrive from the oracle: the typeof checks in
the validator distinguish numbers and booleans from everything else. -/
inductive JVal where
  | jnum (n : Int)
  | jstr (s : String)
  | jbool (b : Bool)
  | jnull
deriving DecidableEq

/-- The decided action inside a validated oracle response. -/
structure ActionDecision where
  type : String
  target : String
  value : Option String := none
  reasoning : String
deriving DecidableEq

/-- A validated oracle response (GPTResponse in the source). -/
structure GPTResponse where
  stateDescription : String
  nextAction : ActionDecision
  isKeyState : Bool
  progressAssessment : Int
deriving DecidableEq

/-- The raw nextAction object before validation; each field may be
absent, and JS treats the empty string as falsy in the presence check. -/
structure RawAction where
  type : Option String := none
  target : Option String := none
  value : Option String := none
  reasoning : Option String := none
deriving DecidableEq

/-- The raw parsed JSON object handed to validateResponse. -/
structure RawResponse where
  stateDescription : Option String := none
  nextAction : Option RawAction := none
  isKeyState : Option JVal := none
  progressAssessment : Option JVal := none
deriving DecidableEq

/-- JS falsiness of an optional string: absent or empty. -/
def falsyStr : Option String → Bool
  | none => true
  | some s => s == ""

/-- The progress sanitisation of validateResponse: typeof number and
range check, defaulting to 0; the second component is true exactly
when the invalid-progress warning was logged. -/
def sanitizeProgress : Option JVal → Int × Bool
  | some (.jnum n) => if n < 0 || 100 < n then (0, true) else (n, false)
  | _ => (0, true)

/-- The isKeyState coercion of validateResponse: typeof boolean check,
defaulting to false. -/
def coerceKeyState : Option JVal → Bool
  | some (.jbool b) => b
  | _ => false

/-- GPT4Client.validateResponse. Throws (Except.error) when nextAction
or its type/target are missing; sanitises the numeric and boolean
fields. The returned Bool is true exactly when the invalid-progress
warning was logged. -/
def validateResponse (data : RawResponse) : Except String (GPTResponse × Bool) :=
  match data.nextAction with
  | none => .error "Invalid GPT response: missing nextAction"
  | some na =>
    if falsyStr na.type || falsyStr na.target then
      .error "Invalid GPT response: missing type or target in nextAction"
    else
      .ok ({ stateDescription := (if falsyStr data.stateDescription
                                  then "No description provided"
                                  else data.stateDescription.getD ""),
             nextAction :=
               { type := na.type.getD "",
                 target := na.target.getD "",
                 value := na.value,
                 reasoning := (if falsyStr na.reasoning then "No reasoning provided"
                               else na.reasoning.getD "") },
             isKeyState := coerceKeyState data.isKeyState,
             progressAssessment := (sanitizeProgress data.progressAssessment).1 },
           (sanitizeProgress data.progressAssessment).2)

/-- A JSON scalar is a number already inside [0,100]. -/
def validNumJV : Option JVal → Bool
  | some (.jnum n) => decide (0 ≤ n) && decide (n ≤ 100)
  | _ => false

/-- The raw progressAssessment field is a number already inside [0,100]. -/
def validRawProgress (data : RawResponse) : Bool := validNumJV data.progressAssessment

/-- A JSON scalar is a boolean. -/
def boolJV : Option JVal → Bool
  | some (.jbool _) => true
  | _ => false

/-- The raw isKeyState field is a boolean. -/
def boolRawKeyState (data : RawResponse) : Bool := boolJV data.isKeyState

/-! ## Task planning (GPT4Client.validateTaskPlan, NavigationAgent.createExecutionPlan) -/

/-- The raw parsed planning response. -/
structure RawTaskPlan where
  taskName : Option String := none
  estimatedSteps : Option Int := none
  keyMilestones : Option (List String) := none
  startingUrl : Option String := none
  complexity : Option String := none
deriving DecidableEq

/-- A validated task plan. -/
structure TaskPlan where
  taskName : String
  estimatedSteps : Int
  keyMilestones : List String
  startingUrl : String
  complexity : String
deriving DecidableEq

/-- GPT4Client.validateTaskPlan: defaults for missing or non-positive
fields (JS: data.estimatedSteps && data.estimatedSteps > 0 ? .. : 5). -/
def validateTaskPlan (data : RawTaskPlan) : TaskPlan :=
  { taskName := (if falsyStr data.taskName then "unnamed_task" else data.taskName.getD ""),
    estimatedSteps := (match data.estimatedSteps with
                       | some n => if 0 < n then n else 5
                       | none => 5),
    keyMilestones := data.keyMilestones.getD [],
    startingUrl := data.startingUrl.getD "",
    complexity := (match data.complexity with
                   | some c => if c == "" then "medium" else c
                   | none => "medium") }

/-- The plan record owned by the orchestrator. -/
structure ExecutionPlan where
  maxSteps : Int
  appName : String
  baseUrl : String
deriving DecidableEq

/-- NavigationAgent.createExecutionPlan: on a successful planning call,
maxSteps := min(config.agent.maxSteps, estimatedSteps + 3); the catch
around the planning call keeps the configured default, so a planning
failure never escapes. The planning call itself (network) is modelled
as the Except-valued input. -/
def createExecutionPlan (configMaxSteps : Int) (appName baseUrl : String)
    (planOutcome : Except String RawTaskPlan) : ExecutionPlan :=
  match planOutcome with
  | .ok raw =>
    { maxSteps := min configMaxSteps ((validateTaskPlan raw).estimatedSteps + 3),
      appName := appName, baseUrl := baseUrl }
  | .error _ =>
    { maxSteps := configMaxSteps, appName := appName, baseUrl := baseUrl }

/-! ## DOM extraction (DOMExtractor.extract / getFallbackDOM) -/

/-- The page effects DOMExtractor.extract performs, as data: the
browser-side evaluation result, page.title() and page.url(), each of
which may throw. -/
structure PageFx where
  evalResult : Except String String
  titleResult : Except String String
  urlResult : Except String String

/-- The one-element fallback snapshot JSON.stringify produces
(JSON string escaping of the title and url is elided). -/
def mkFallbackJson (title url : String) : String :=
  "[\x7b\"tag\":\"page\",\"text\":\"" ++ title ++ "\",\"href\":\"" ++ url ++ "\"\x7d]"

/-- page.title() with its inline catch falling back to "Unknown Page". -/
def fallbackTitle (p : PageFx) : String :=
  match p.titleResult with
  | .ok t => t
  | .error _ => "Unknown Page"

/-- DOMExtractor.getFallbackDOM: page.title() falls back to
"Unknown Page"; if page.url() (or the final stringify) throws, the
outer catch returns the empty list. -/
def getFallbackDOM (p : PageFx) : String :=
  match p.urlResult with
  | .ok url => mkFallbackJson (fallbackTitle p) url
  | .error _ => "[]"

/-- DOMExtractor.extract: an evaluation failure or an empty/minimal
result is replaced by the fallback snapshot (the stabilisation waits
are timing-only and not modelled). -/
def domExtract (p : PageFx) : String :=
  match p.evalResult with
  | .error _ => getFallbackDOM p
  | .ok domJson =>
    if domJson == "" || domJson == "[]" || decide (domJson.length < 10) then
      getFallbackDOM p
    else domJson

/-! ## Session gate (SessionManager.isLoggedIn) -/

/-- The page effects SessionManager.isLoggedIn performs, as data: the
url read and each locator count the method may request, any of which
may throw. -/
structure AuthPage where
  url : Except String String
  loginButtonCount : Except String Nat
  linearWorkspaceCount : Except String Nat
  notionSidebarCount : Except String Nat
  notionContentCount : Except String Nat
  asanaSidebarCount : Except String Nat
  asanaTaskCount : Except String Nat

/-- SessionManager.isOnLoginPage. -/
def isOnLoginPage (url : String) : Bool :=
  strContains url "/login" || strContains url "/signin" || strContains url "/auth"

/-- SessionManager.checkLinearAuth. -/
def checkLinearAuth (p : AuthPage) : Except String Bool := do
  let indicators ← p.linearWorkspaceCount
  pure (decide (0 < indicators))

/-- SessionManager.checkNotionAuth. -/
def checkNotionAuth (p : AuthPage) : Except String Bool := do
  let indicators ← p.notionSidebarCount
  if 0 < indicators then
    pure true
  else do
    let contentArea ← p.notionContentCount
    pure (decide (0 < contentArea))

/-- SessionManager.checkAsanaAuth. -/
def checkAsanaAuth (p : AuthPage) : Except String Bool := do
  let indicators ← p.asanaSidebarCount
  if 0 < indicators then
    pure true
  else do
    let taskList ← p.asanaTaskCount
    pure (decide (0 < taskList))

/-- The body of SessionManager.isLoggedIn inside its try block. The
platform-specific checks are returned WITHOUT await
(return this.checkLinearAuth(page) and so on), so the try block exits
normally with their still-pending promise: the outer Except layer
carries only the errors the try itself can observe (the url read and
the login-button count), while the inner Except is the returned
platform-check promise, whose later rejection the catch never sees.
(The duplicate SessionManager copy bundled inside dom-extractor.ts
uses return await instead; the modelled file is session-manager.ts,
which the claim cites.) -/
def isLoggedInBody (p : AuthPage) : Except String (Except String Bool) :=
  match p.url with
  | .error e => .error e
  | .ok url =>
    if isOnLoginPage url then .ok (.ok false)
    else
      match p.loginButtonCount with
      | .error e => .error e
      | .ok loginButtons =>
        if 0 < loginButtons then .ok (.ok false)
        else if strContains url "linear.app" then .ok (checkLinearAuth p)
        else if strContains url "notion.so" || strContains url "notion.com" then
          .ok (checkNotionAuth p)
        else if strContains url "asana.com" then .ok (checkAsanaAuth p)
        else .ok (.ok (!isOnLoginPage url))

/-- SessionManager.isLoggedIn as its caller observes it: the catch
converts an error raised inside the try into false, but a rejection of
a returned un-awaited platform check bypasses the catch, so the call
itself rejects (Except.error) and the error propagates to the caller. -/
def isLoggedIn (p : AuthPage) : Except String Bool :=
  match isLoggedInBody p with
  | .ok result => result
  | .error _ => .ok false

/-! ## The execution loop (NavigationAgent.execute and helpers) -/

/-- A history entry (ActionEntry in the source; the wall-clock
timestamp field is not modelled, nothing reads it). -/
structure HEntry where
  step : Nat
  action : ActionDecision
  description : String
  progressAssessment : Int
  isKeyState : Bool
deriving DecidableEq

/-- NavigationAgent.isStuck: the last three entries repeat the same
action with stagnant progress, or all three carry a not-found signal. -/
def isStuck (history : List HEntry) : Bool :=
  if history.length < 3 then false
  else
    let last3 := history.drop (history.length - 3)
    match last3 with
    | [] => false
    | first :: _ =>
      let sameAction := last3.all fun h =>
        h.action.target == first.action.target && h.action.type == first.action.type
      let stagnant := last3.all fun h =>
        decide ((h.progressAssessment - first.progressAssessment).natAbs < 5)
      let errors := last3.all fun h =>
        ciContains h.description "not found" || ciContains h.action.reasoning "not found"
      (sameAction && stagnant) || errors

/-- The number of history entries whose description carries the
recovery tag (the filter in detectAndHandleStuckState). -/
def countRecovery (history : List HEntry) : Nat :=
  (history.filter fun h => strContains h.description "RECOVERY_MODE").length

/-- Append the recovery tag to the description of the last entry
(the in-place mutation in detectAndHandleStuckState, functionally). -/
def tagLast : List HEntry → List HEntry
  | [] => []
  | [e] => [{ e with description := e.description ++ " [RECOVERY_MODE]" }]
  | e :: e2 :: rest => e :: tagLast (e2 :: rest)

/-- history.splice(-2): drop the last two entries. -/
def spliceLastTwo (l : List HEntry) : List HEntry := l.take (l.length - 2)

/-- The four possible outcomes of NavigationAgent.detectAndHandleStuckState:
not stuck (return false), backtrack requested (return true, after
tagging the last entry), or one of the two thrown errors. -/
inductive StuckSignal where
  | notStuck
  | backtrack (tagged : List HEntry)
  | fatalMaxRecovery
  | fatalCannotBacktrack
deriving DecidableEq

/-- NavigationAgent.detectAndHandleStuckState. -/
def detectAndHandleStuckState (history : List HEntry) : StuckSignal :=
  if !isStuck history then .notStuck
  else if 3 ≤ countRecovery history then .fatalMaxRecovery
  else if 2 ≤ history.length then .backtrack (tagLast history)
  else .fatalCannotBacktrack

/-- NavigationAgent.refineDecision: the three business rules, applied
in order with early return, on the oracle decision. -/
def refineDecision (decision : GPTResponse) (history : List HEntry) (task : String) :
    GPTResponse :=
  let taskLower := lowerStr task
  let hasDescriptionRequest :=
    strContains taskLower "description" && strContains taskLower "create"
  let hasTitle := history.any fun h =>
    h.action.type == "type" && ciContains h.action.target "title"
  let hasDescription := history.any fun h =>
    h.action.type == "type" && ciContains h.action.target "description"
  if decision.nextAction.type == "complete" && hasDescriptionRequest &&
     hasTitle && !hasDescription then
    { decision with
      nextAction :=
        { type := "click", target := "Add description", value := none,
          reasoning := "Task requires description to be added after creating issue." },
      progressAssessment := 60 }
  else
    let isMultiStep :=
      (strContains taskLower "and" || strContains taskLower "then") &&
      strContains taskLower "create" && strContains taskLower "assign"
    let hasCreated := history.any fun h =>
      h.action.type == "type" &&
      (ciContains h.action.target "title" || ciContains h.action.target "issue")
    let hasAssigned := history.any fun h => ciContains h.action.target "assign"
    if decision.nextAction.type == "complete" && isMultiStep &&
       hasCreated && !hasAssigned then
      { decision with
        nextAction :=
          { type := "click", target := "Assignee field", value := none,
            reasoning := "Task requires assignment after creation." },
        progressAssessment := 70 }
    else
      if decision.nextAction.type == "click" &&
         decide ((80 : Int) < decision.progressAssessment) &&
         decide (2 ≤ history.length) then
        let lastTwo := history.drop (history.length - 2)
        let isRepeated := lastTwo.all fun h =>
          h.action.type == "click" && h.action.target == decision.nextAction.target
        if isRepeated && (strContains taskLower "status" || strContains taskLower "assign") then
          { decision with
            nextAction :=
              { type := "complete", target := "Task completed", value := none,
                reasoning := "Repeated interaction suggests UI state is final." },
            progressAssessment := 100 }
        else decision
      else decision

/-- Whitespace class of the \s regex escape (over the characters the
modelled strings use). -/
def isWsChar (c : Char) : Bool := c == ' ' || c == '\t' || c == '\n' || c == '\r'

/-- The tail test of the regex piece (?:\s+in|\s*$): the remaining
characters start with whitespace followed by "in" (case insensitive),
or consist of whitespace only. -/
def etsTailOk (l : List Char) : Bool :=
  (match l with
   | c :: rest =>
     isWsChar c && chStarts ['i', 'n'] ((List.dropWhile isWsChar rest).map Char.toLower)
   | [] => false) ||
  l.all isWsChar

/-- The lazy capture (.+?) of the status regex: the shortest nonempty
prefix whose remainder passes etsTailOk. -/
def etsMinCapture (acc : List Char) : List Char → Option (List Char)
  | [] => if acc.isEmpty then none else some acc.reverse
  | c :: rest =>
    if !acc.isEmpty && etsTailOk (c :: rest) then some acc.reverse
    else etsMinCapture (c :: acc) rest

/-- Best-effort translation of task.match(/to\s+(.+?)(?:\s+in|\s*$)/i):
scan left to right for "to" followed by whitespace, then take the
leftmost-minimal capture; returns the capture trimmed and lower-cased,
as checkImplicitCompletion consumes it. -/
def etsScan : List Char → Option String
  | [] => none
  | t :: rest =>
    (match rest with
     | o :: ws :: tl =>
       if t.toLower == 't' && o.toLower == 'o' && isWsChar ws then
         match etsMinCapture [] (List.dropWhile isWsChar (ws :: tl)) with
         | some cap => some (lowerStr (String.mk cap).trim)
         | none => etsScan rest
       else etsScan rest
     | _ => etsScan rest)

/-- The extracted target status of checkImplicitCompletion. -/
def extractTargetStatus (task : String) : Option String := etsScan task.data

/-- NavigationAgent.checkImplicitCompletion. -/
def checkImplicitCompletion (task : String) (decision : GPTResponse)
    (history : List HEntry) : Bool :=
  if strContains (lowerStr task) "status" &&
     decide ((80 : Int) ≤ decision.progressAssessment) &&
     decide (2 ≤ history.length) then
    match extractTargetStatus task with
    | some targetStatus =>
      let recentClicks := (history.drop (history.length - 3)).filter fun h =>
        strContains (lowerStr h.action.target) targetStatus
      decide (2 ≤ recentClicks.length)
    | none => false
  else false

/-- The loop-local state of NavigationAgent.execute: the history, the
step counter, the completion flag, and the number of oracle calls made
so far (indexing the oracle stream). -/
structure RunState where
  history : List HEntry
  step : Nat
  complete : Bool
  calls : Nat
deriving DecidableEq

/-- How a (fuelled) run ends. -/
inductive Outcome where
  | completed
  | maxStepsReached
  | fatalMaxRecovery
  | fatalCannotBacktrack
  | oracleError
  | outOfFuel
deriving DecidableEq

/-- The observable record of a run: its outcome, final state, every
history value as it existed after each mutation (the inspection
points), the number of stuck detections, and each append together with
the history it was appended to. -/
structure RunResult where
  outcome : Outcome
  final : RunState
  snapshots : List (List HEntry)
  stuckDetections : Nat
  appendEvents : List (List HEntry × HEntry)
deriving DecidableEq

/-- The state after the backtrack at lines 64 to 65 of the source:
history.splice(-2) on the tagged history, then step = history.length. -/
def backtrackState (st : RunState) (tagged : List HEntry) : RunState :=
  let h2 := spliceLastTwo tagged
  { history := h2, step := h2.length, complete := st.complete, calls := st.calls }

/-- One fuelled unfolding of the while loop of NavigationAgent.execute.
Browser actions (executeAction, screenshots, session saves) have no
effect on the loop bookkeeping and are not modelled; the oracle is the
stream of analyzeScreenshot results, indexed by call count, where an
error models a thrown OracleProtocolError (fatal for the run). -/
def runLoop (task : String) (maxSteps : Nat) (oracle : Nat → Except String GPTResponse) :
    Nat → RunState → RunResult
  | 0, st => ⟨.outOfFuel, st, [], 0, []⟩
  | Nat.succ fuel, st =>
    if st.complete then ⟨.completed, st, [], 0, []⟩
    else if maxSteps ≤ st.step then ⟨.maxStepsReached, st, [], 0, []⟩
    else
      match detectAndHandleStuckState st.history with
      | .fatalMaxRecovery => ⟨.fatalMaxRecovery, st, [], 1, []⟩
      | .fatalCannotBacktrack => ⟨.fatalCannotBacktrack, st, [], 1, []⟩
      | .backtrack tagged =>
        let st2 := backtrackState st tagged
        let r := runLoop task maxSteps oracle fuel st2
        ⟨r.outcome, r.final, st2.history :: r.snapshots, r.stuckDetections + 1,
         r.appendEvents⟩
      | .notStuck =>
        match oracle st.calls with
        | .error _ => ⟨.oracleError, st, [], 0, []⟩
        | .ok raw =>
          let decision := refineDecision raw st.history task
          let isComplete := decision.nextAction.type == "complete"
          let implicit :=
            if isComplete then false
            else checkImplicitCompletion task decision st.history
          let entry : HEntry :=
            { step := st.step, action := decision.nextAction,
              description := decision.stateDescription,
              progressAssessment := decision.progressAssessment,
              isKeyState := decision.isKeyState }
          let h2 := st.history ++ [entry]
          let st2 : RunState :=
            { history := h2, step := st.step + 1,
              complete := isComplete || implicit, calls := st.calls + 1 }
          let r := runLoop task maxSteps oracle fuel st2
          ⟨r.outcome, r.final, h2 :: r.snapshots, r.stuckDetections,
           (st.history, entry) :: r.appendEvents⟩

/-- A whole run of NavigationAgent.execute from the empty history. -/
def runAgent (task : String) (maxSteps : Nat)
    (oracle : Nat → Except String GPTResponse) (fuel : Nat) : RunResult :=
  runLoop task maxSteps oracle fuel ⟨[], 0, false, 0⟩

/-! ## DOM model and element resolution (ElementFinder)

A page is a list of DOM nodes in document order; a node refers to its
parent by index (a parent always precedes its children, enforced by the
fuelled ancestor walk). A Playwright locator is the list of indices of
the matching nodes in document order; locator.first() is its head.
Live-page interactions performed inside some finders (clicking the
Add-description button, clicking an issue link, the command-palette
search macro) cannot change a static page value: they are modelled as
not changing the page, and the search macro, which succeeds only when
the page actually navigates, as failing. Accessible names are computed
with the usual simplification: aria-label, else the text of an
associated label, else the placeholder, else the text content. -/

/-- A DOM node: the attributes the finder inspects. Absent string
attributes are the empty string. -/
structure DomNode where
  tag : String := ""
  idAttr : String := ""
  role : String := ""
  text : String := ""
  ariaLabel : String := ""
  placeholder : String := ""
  dataPlaceholder : String := ""
  forAttr : String := ""
  href : String := ""
  typeAttr : String := ""
  dataTestId : String := ""
  dataIssueId : String := ""
  cls : String := ""
  contenteditable : String := ""
  visible : Bool := true
  parent : Option Nat := none
deriving DecidableEq

/-- A page in document order. -/
abbrev DomPage := List DomNode

/-- The node at an index. -/
def nodeAt (page : DomPage) (i : Nat) : Option DomNode := page.get? i

/-- The parent index of a node. -/
def parentOf (page : DomPage) (i : Nat) : Option Nat :=
  match nodeAt page i with
  | some n => n.parent
  | none => none

/-- The chain of ancestor indices, nearest first (fuelled walk, fuel
bounded by the page size). -/
def ancestorChainAux (page : DomPage) : Nat → Nat → List Nat
  | 0, _ => []
  | Nat.succ fuel, i =>
    match parentOf page i with
    | some p => p :: ancestorChainAux page fuel p
    | none => []

/-- The ancestors of node i, nearest first. -/
def ancestorChain (page : DomPage) (i : Nat) : List Nat :=
  ancestorChainAux page page.length i

/-- a is a strict ancestor of i. -/
def isAncestor (page : DomPage) (a i : Nat) : Bool :=
  (ancestorChain page i).contains a

/-- All indices whose node satisfies a predicate, in document order
(a CSS-selector locator). -/
def selAll (page : DomPage) (p : Nat → DomNode → Bool) : List Nat :=
  (page.enum.filter fun q => p q.1 q.2).map (fun q => q.1)

/-- The node at the head of a locator is present and visible:
ElementFinder.isVisible (count() = 0 is false, else first().isVisible()). -/
def isVisibleL (page : DomPage) (loc : List Nat) : Bool :=
  match loc.head? with
  | some i => (match nodeAt page i with | some n => n.visible | none => false)
  | none => false

/-- ElementFinder.tryLocator: the first match when the locator is
visible, else nothing. -/
def tryLocator (page : DomPage) (loc : List Nat) : Option Nat :=
  if isVisibleL page loc then loc.head? else none

/-- The implicit ARIA role of a tag (simplified mapping: the roles the
finder queries). -/
def implicitRole (tag : String) : String :=
  if tag == "button" then "button"
  else if tag == "a" then "link"
  else if tag == "input" || tag == "textarea" then "textbox"
  else if tag == "dialog" then "dialog"
  else ""

/-- The effective ARIA role of a node. -/
def effRole (n : DomNode) : String :=
  if n.role == "" then implicitRole n.tag else n.role

/-- The accessible name of a node (simplified computation, see above). -/
def accName (page : DomPage) (n : DomNode) : String :=
  if n.ariaLabel == "" then
    match page.find? (fun m =>
        m.tag == "label" && !(m.forAttr == "") && m.forAttr == n.idAttr &&
        !(n.idAttr == "")) with
    | some lbl => lbl.text
    | none => if n.placeholder == "" then n.text else n.placeholder
  else n.ariaLabel

/-- page.getByRole(role, name-predicate): nodes with the effective role
whose accessible name passes the predicate. -/
def getByRolePred (page : DomPage) (role : String) (namePred : String → Bool) :
    List Nat :=
  selAll page fun _ n => effRole n == role && namePred (accName page n)

/-- page.getByRole(role, name, exact: true): case-sensitive whole-string
name match. -/
def getByRoleExact (page : DomPage) (role name : String) : List Nat :=
  getByRolePred page role (fun s => s == name)

/-- page.getByRole(role, regex of a literal with the i flag):
case-insensitive substring name match. -/
def getByRoleCi (page : DomPage) (role pat : String) : List Nat :=
  getByRolePred page role (fun s => ciContains s pat)

/-- page.getByText(t, exact: true). -/
def getByTextExact (page : DomPage) (t : String) : List Nat :=
  selAll page fun _ n => n.text == t

/-- page.getByText(t) or a literal i-flag regex: case-insensitive
substring of the text content. -/
def getByTextCi (page : DomPage) (t : String) : List Nat :=
  selAll page fun _ n => ciContains n.text t

/-- page.getByPlaceholder(t). -/
def getByPlaceholderCi (page : DomPage) (t : String) : List Nat :=
  selAll page fun _ n => !(n.placeholder == "") && ciContains n.placeholder t

/-- page.getByLabel(t): nodes associated (via for-attribute or nesting)
with a label whose text contains t. -/
def getByLabelCi (page : DomPage) (t : String) : List Nat :=
  selAll page fun i n =>
    page.enum.any fun q =>
      q.2.tag == "label" && ciContains q.2.text t &&
      ((!(q.2.forAttr == "") && q.2.forAttr == n.idAttr && !(n.idAttr == "")) ||
       isAncestor page q.1 i)

/-- The CSS attribute selector [aria-label*="t" i]. -/
def ariaLabelSub (page : DomPage) (t : String) : List Nat :=
  selAll page fun _ n => !(n.ariaLabel == "") && ciContains n.ariaLabel t

/-- The CSS attribute selector [data-testid*="t" i]. -/
def dataTestIdSubCi (page : DomPage) (t : String) : List Nat :=
  selAll page fun _ n => !(n.dataTestId == "") && ciContains n.dataTestId t

/-- button:has-text("t") (has-text is case-insensitive substring). -/
def buttonHasText (page : DomPage) (t : String) : List Nat :=
  selAll page fun _ n => n.tag == "button" && ciContains n.text t

/-- [role="button"]:has-text("t") (explicit role attribute). -/
def roleButtonHasText (page : DomPage) (t : String) : List Nat :=
  selAll page fun _ n => n.role == "button" && ciContains n.text t

/-- Restrict a locator to strict descendants of a scope node. -/
def scopedTo (page : DomPage) (d : Nat) (loc : List Nat) : List Nat :=
  loc.filter fun i => isAncestor page d i

/-- The first non-null result of a strategy list. -/
def firstSome : List (Option Nat) → Option Nat
  | [] => none
  | some x :: _ => some x
  | none :: rest => firstSome rest

/-- ElementFinder.findByPatterns: the first pattern whose locator is
visible yields its first match. -/
def findByPatterns (page : DomPage) : List (DomPage → List Nat) → Option Nat
  | [] => none
  | pat :: rest =>
    match tryLocator page (pat page) with
    | some i => some i
    | none => findByPatterns page rest

/-- ElementFinder.getAssigneePatterns. -/
def assigneePatterns : List (DomPage → List Nat) :=
  [fun p => getByRoleCi p "button" "assign",
   fun p => getByRoleCi p "button" "assignee",
   fun p => getByTextCi p "No assignee",
   fun p => getByTextCi p "Unassigned",
   fun p => ariaLabelSub p "Assignee",
   fun p => ariaLabelSub p "assign",
   fun p => dataTestIdSubCi p "assignee",
   fun p => buttonHasText p "Assign",
   fun p => buttonHasText p "Unassigned"]

/-- ElementFinder.getStatusPatterns. -/
def statusPatterns : List (DomPage → List Nat) :=
  [fun p => getByRoleCi p "button" "status",
   fun p => ariaLabelSub p "Status",
   fun p => dataTestIdSubCi p "status",
   fun p => selAll p fun _ n =>
     n.tag == "button" && (strContains n.cls "status" || strContains n.cls "badge"),
   fun p => roleButtonHasText p "Todo",
   fun p => roleButtonHasText p "In Progress",
   fun p => roleButtonHasText p "Done",
   fun p => roleButtonHasText p "Backlog",
   fun p => buttonHasText p "Status"]

/-- ElementFinder.getNotificationPatterns. -/
def notificationPatterns : List (DomPage → List Nat) :=
  [fun p => getByRoleCi p "button" "notification",
   fun p => ariaLabelSub p "notification",
   fun p => dataTestIdSubCi p "notification",
   fun p => selAll p fun _ n =>
     n.tag == "button" && (strContains n.cls "notification" || strContains n.cls "bell"),
   fun p => (selAll p fun _ n =>
       n.tag == "svg" && (strContains n.cls "bell" || strContains n.cls "notification")).filterMap
     (fun i => ((ancestorChain p i).filter fun a =>
         match nodeAt p a with | some m => m.tag == "button" | none => false).head?),
   fun p => selAll p fun i n =>
     n.tag == "button" && (selAll p fun j m =>
       m.tag == "svg" && strContains m.cls "bell" && isAncestor p i j) ≠ [],
   fun p => selAll p fun i n =>
     n.tag == "button" && (selAll p fun j m =>
       m.tag == "svg" && strContains m.cls "notification" && isAncestor p i j) ≠ []]

/-- ElementFinder.getSaveButtonPatterns. -/
def saveButtonPatterns : List (DomPage → List Nat) :=
  [fun p => getByRolePred p "button" fun s =>
     ciContains s "save" || ciContains s "update" || ciContains s "apply" || ciContains s "confirm",
   fun p => selAll p fun _ n => n.tag == "button" && n.typeAttr == "submit",
   fun p => buttonHasText p "Save",
   fun p => buttonHasText p "Update",
   fun p => ariaLabelSub p "save",
   fun p => dataTestIdSubCi p "save"]

/-- ElementFinder.resolveLabelToInput: a label node is re-resolved to
its associated input via the for-attribute, then a nested editable,
then the next input or textarea in document order outside the label;
anything that is not a label, or a label with no such input, yields
nothing. -/
def resolveLabelToInput (page : DomPage) (i : Nat) : Option Nat :=
  match nodeAt page i with
  | none => none
  | some n =>
    if !(n.tag == "label") then none
    else
      match (if n.forAttr == "" then none
             else tryLocator page (selAll page fun _ m => m.idAttr == n.forAttr)) with
      | some r => some r
      | none =>
        match tryLocator page (selAll page fun j m =>
            isAncestor page i j &&
            (m.tag == "input" || m.tag == "textarea" || m.contenteditable == "true")) with
        | some r => some r
        | none =>
          tryLocator page (selAll page fun j m =>
            decide (i < j) && !isAncestor page i j &&
            (m.tag == "input" || m.tag == "textarea"))

/-- ElementFinder.getGenericStrategies, already applied in order: the
results of the ten page-wide strategies. -/
def genericStrategies (page : DomPage) (target : String) : List (Option Nat) :=
  [tryLocator page (getByRoleExact page "button" target),
   tryLocator page (getByRoleCi page "button" target),
   tryLocator page (getByRoleExact page "link" target),
   tryLocator page (getByRoleCi page "link" target),
   tryLocator page (getByTextExact page target),
   tryLocator page (getByPlaceholderCi page target),
   tryLocator page (getByLabelCi page target),
   tryLocator page (getByRoleCi page "textbox" target),
   tryLocator page (getByTextCi page target),
   tryLocator page (ariaLabelSub page target)]

/-- The first generic strategy hit. -/
def genericFirstHit (page : DomPage) (target : String) : Option Nat :=
  firstSome (genericStrategies page target)

/-- ElementFinder.getDialogStrategies: the eight dialog-scoped
strategies, in order. -/
def dialogStrategies (page : DomPage) (d : Nat) (target : String) : List (Option Nat) :=
  [tryLocator page (scopedTo page d (getByRoleExact page "button" target)),
   tryLocator page (scopedTo page d (getByRoleCi page "button" target)),
   tryLocator page (scopedTo page d (getByRoleExact page "link" target)),
   tryLocator page (scopedTo page d (getByTextExact page target)),
   tryLocator page (scopedTo page d (getByPlaceholderCi page target)),
   tryLocator page (scopedTo page d (getByLabelCi page target)),
   tryLocator page (scopedTo page d (getByRoleCi page "textbox" target)),
   tryLocator page (scopedTo page d (ariaLabelSub page target))]

/-- The five dialog selectors of ElementFinder.findInDialog. -/
def dialogSelectors : List (DomNode → Bool) :=
  [fun n => n.role == "dialog",
   fun n => n.role == "alertdialog",
   fun n => n.tag == "dialog",
   fun n => strContains n.dataTestId "modal",
   fun n => strContains n.dataTestId "dialog"]

/-- ElementFinder.findInDialog: for each dialog selector whose first
match is visible, try the dialog-scoped strategies. -/
def findInDialogAux (page : DomPage) (target : String) :
    List (DomNode → Bool) → Option Nat
  | [] => none
  | sel :: rest =>
    match (selAll page fun _ n => sel n).head? with
    | some d =>
      if isVisibleL page [d] then
        match firstSome (dialogStrategies page d target) with
        | some r => some r
        | none => findInDialogAux page target rest
      else findInDialogAux page target rest
    | none => findInDialogAux page target rest

/-- ElementFinder.findInDialog. -/
def findInDialog (page : DomPage) (target : String) : Option Nat :=
  findInDialogAux page target dialogSelectors

/-! ### Target-pattern guards of ElementFinder.findElement -/

/-- The test of /issue title|^title$/i. -/
def titlePattern (t : String) : Bool := ciContains t "issue title" || ciEquals t "title"

/-- The test of /description/i. -/
def descPattern (t : String) : Bool := ciContains t "description"

/-- The test of /^add description/i. -/
def addDescPattern (t : String) : Bool := ciStartsWith t "add description"

/-- The test of /comment/i. -/
def commentPattern (t : String) : Bool := ciContains t "comment"

/-- The test of /status badge|status of|change status/i. -/
def statusNavPattern (t : String) : Bool :=
  ciContains t "status badge" || ciContains t "status of" || ciContains t "change status"

/-- The test of /assignee|assign|unassigned|to yourself/i. -/
def assignPattern (t : String) : Bool :=
  ciContains t "assignee" || ciContains t "assign" ||
  ciContains t "unassigned" || ciContains t "to yourself"

/-- The guard of the status-field branch:
/status|in progress|todo|done|backlog/i and not /status badge|status of/i. -/
def statusFieldBranch (t : String) : Bool :=
  (ciContains t "status" || ciContains t "in progress" || ciContains t "todo" ||
   ciContains t "done" || ciContains t "backlog") &&
  !(ciContains t "status badge" || ciContains t "status of")

/-- The test of /notification/i. -/
def notifPattern (t : String) : Bool := ciContains t "notification"

/-- ASCII letter. -/
def isLetterCh (c : Char) : Bool :=
  ('a' ≤ c && c ≤ 'z') || ('A' ≤ c && c ≤ 'Z')

/-- ASCII digit. -/
def isDigitCh (c : Char) : Bool := '0' ≤ c && c ≤ '9'

/-- Try to match [A-Z]{k}-\d+ (case insensitive) at the start of the
characters, for one fixed letter count k; on success return the
matched characters (letters, dash, the full greedy digit run). -/
def issueIdAtLen (cs : List Char) (k : Nat) : Option (List Char) :=
  let letters := cs.take k
  let rest := cs.drop k
  if letters.length == k && letters.all isLetterCh then
    match rest with
    | '-' :: ds =>
      let digits := ds.takeWhile isDigitCh
      if digits.isEmpty then none else some (letters ++ '-' :: digits)
    | _ => none
  else none

/-- The first non-null of a list of optional character runs. -/
def firstSomeChars : List (Option (List Char)) → Option (List Char)
  | [] => none
  | some x :: _ => some x
  | none :: rest => firstSomeChars rest

/-- Greedy [A-Z]{2,10}-\d+ at a fixed position: the largest letter
count in 10..2 that matches (regex backtracking order). -/
def issueIdHere (cs : List Char) : Option (List Char) :=
  firstSomeChars [issueIdAtLen cs 10, issueIdAtLen cs 9, issueIdAtLen cs 8,
    issueIdAtLen cs 7, issueIdAtLen cs 6, issueIdAtLen cs 5, issueIdAtLen cs 4,
    issueIdAtLen cs 3, issueIdAtLen cs 2]

/-- The anchored match /^([A-Z]{2,10}-\d+)/i of findElement. -/
def issueIdAnchored (t : String) : Option String :=
  (issueIdHere t.data).map String.mk

/-- The unanchored match /([A-Z]{2,10}-\d+)/i of
findStatusWithIssueNavigation: leftmost match. -/
def issueIdScan : List Char → Option (List Char)
  | [] => none
  | c :: rest =>
    match issueIdHere (c :: rest) with
    | some m => some m
    | none => issueIdScan rest

/-- The unanchored issue-id match of a target string. -/
def issueIdAnywhere (t : String) : Option String := (issueIdScan t.data).map String.mk

/-! ### Specialized field finders -/

/-- The selector loop of ElementFinder.findTitleField: first visible
match whose tag is input or div. -/
def titleSelLoop (page : DomPage) : List (List Nat) → Option Nat
  | [] => none
  | cand :: rest =>
    if isVisibleL page cand then
      match cand.head? with
      | some i =>
        (match nodeAt page i with
         | some n => if n.tag == "input" || n.tag == "div" then some i
                     else titleSelLoop page rest
         | none => titleSelLoop page rest)
      | none => titleSelLoop page rest
    else titleSelLoop page rest

/-- The textbox fallback loop of findTitleField: every role-textbox
node (visibility not rechecked, as in the source), first whose
placeholder mentions title or is empty. -/
def titleTextboxLoop (page : DomPage) : List Nat → Option Nat
  | [] => none
  | i :: rest =>
    match nodeAt page i with
    | some n =>
      if ciContains n.placeholder "title" || n.placeholder == "" then some i
      else titleTextboxLoop page rest
    | none => titleTextboxLoop page rest

/-- ElementFinder.findTitleField. -/
def findTitleField (page : DomPage) : Option Nat :=
  match titleSelLoop page
    [selAll page fun _ n => n.tag == "input" && ciContains n.placeholder "issue title",
     selAll page fun _ n =>
       n.tag == "input" && ciContains n.placeholder "title" && !(n.typeAttr == "search"),
     selAll page fun _ n =>
       n.tag == "div" && n.contenteditable == "true" && ciContains n.placeholder "title",
     selAll page fun i n =>
       n.tag == "input" && n.typeAttr == "text" &&
       ((selAll page fun j m => m.role == "dialog" && isAncestor page j i) ≠ [])] with
  | some i => some i
  | none => titleTextboxLoop page (selAll page fun _ n => effRole n == "textbox")

/-- The placeholder the description scan reads:
getAttribute placeholder, else data-placeholder, lower-cased. -/
def descPlaceholder (n : DomNode) : String :=
  lowerStr (if n.placeholder == "" then n.dataPlaceholder else n.placeholder)

/-- The concatenated ancestor text of the description scan (each
ancestor contributes its trimmed text truncated to 200 characters,
until 100 characters were accumulated or the walk leaves the tree);
best-effort rendering of the browser-side walk. -/
def parentTextAux (page : DomPage) : Nat → Option Nat → String → String
  | 0, _, acc => acc
  | _, none, acc => acc
  | Nat.succ fuel, some p, acc =>
    if 100 ≤ acc.length then acc
    else
      match nodeAt page p with
      | none => acc
      | some n =>
        let acc2 := acc ++ String.mk (n.text.trim.data.take 200)
        if n.tag == "body" then acc2
        else parentTextAux page fuel (parentOf page p) acc2

/-- The parent-context text of a node. -/
def parentText (page : DomPage) (i : Nat) : String :=
  parentTextAux page page.length (parentOf page i) ""

/-- The last-to-first scan of ElementFinder.findDescriptionField over
the contenteditable divs, with its skip rules. -/
def descScan (page : DomPage) : List Nat → Option Nat
  | [] => none
  | i :: rest =>
    match nodeAt page i with
    | none => descScan page rest
    | some n =>
      if !n.visible then descScan page rest
      else
        let ph := descPlaceholder n
        let ptext := lowerStr (parentText page i)
        if strContains ph "title" then descScan page rest
        else if strContains ph "issue" then descScan page rest
        else if strContains ph "comment" then descScan page rest
        else if strContains ph "leave" then descScan page rest
        else if n.role == "textbox" && strContains ptext "comment" then descScan page rest
        else if decide (100 < n.text.trim.length) then descScan page rest
        else some i

/-- ElementFinder.findDescriptionField. The reveal click on the
Add-description button mutates only the live page, which a static page
value cannot reflect; the subsequent scan is modelled on the same page. -/
def findDescriptionField (page : DomPage) : Option Nat :=
  descScan page (selAll page fun _ n => n.tag == "div" && n.contenteditable == "true").reverse

/-- The selector loop of ElementFinder.findCommentField: first visible
match whose tag is not button. -/
def commentSelLoop (page : DomPage) : List (List Nat) → Option Nat
  | [] => none
  | cand :: rest =>
    if isVisibleL page cand then
      match cand.head? with
      | some i =>
        (match nodeAt page i with
         | some n => if !(n.tag == "button") then some i else commentSelLoop page rest
         | none => commentSelLoop page rest)
      | none => commentSelLoop page rest
    else commentSelLoop page rest

/-- ElementFinder.findCommentField. -/
def findCommentField (page : DomPage) : Option Nat :=
  commentSelLoop page
    [selAll page fun _ n => n.contenteditable == "true" && ciContains n.placeholder "comment",
     selAll page fun _ n => n.tag == "textarea" && ciContains n.placeholder "comment",
     selAll page fun _ n => n.tag == "div" && n.contenteditable == "true" && n.role == "textbox"]

/-- ElementFinder.findAssigneeField. -/
def findAssigneeField (page : DomPage) : Option Nat :=
  findByPatterns page assigneePatterns

/-- ElementFinder.findStatusField. -/
def findStatusField (page : DomPage) : Option Nat :=
  findByPatterns page statusPatterns

/-- ElementFinder.findSaveButton. -/
def findSaveButton (page : DomPage) : Option Nat :=
  findByPatterns page saveButtonPatterns

/-- The href test of findIssue strategy 3: href contains
/issue/<idLower> followed by a slash, a question mark or the end, or
contains the upper-cased id anywhere. -/
def hrefMatchesIssue (href idUpper idLower : String) : Bool :=
  (let pat := ("/issue/" ++ idLower).data
   let rec scan : List Char → Bool
     | [] => false
     | c :: rest =>
       (chStarts pat (c :: rest) &&
        (match (c :: rest).drop pat.length with
         | [] => true
         | '/' :: _ => true
         | '?' :: _ => true
         | _ => false)) || scan rest
   scan href.data) || strContains href idUpper

/-- The href-scan loop of findIssue strategy 3 over the /issue/ links. -/
def issueLinkLoop (page : DomPage) (idUpper idLower : String) : List Nat → Option Nat
  | [] => none
  | i :: rest =>
    match nodeAt page i with
    | some n =>
      if hrefMatchesIssue n.href idUpper idLower && n.visible then some i
      else issueLinkLoop page idUpper idLower rest
    | none => issueLinkLoop page idUpper idLower rest

/-- The href test of findIssue strategies 1: a non-empty href
containing /<idLower>/ or /<idUpper>/. -/
def hrefHasId (href idUpper idLower : String) : Bool :=
  !(href == "") &&
  (strContains href ("/" ++ idLower ++ "/") || strContains href ("/" ++ idUpper ++ "/"))

/-- ElementFinder.findIssue. Strategy 4 (the command-palette search
macro) succeeds only when the live page navigates to an issue URL,
which a static page value cannot do: it is modelled as failing. -/
def findIssue (page : DomPage) (issueId : String) : Option Nat :=
  let idUpper := upperStr issueId
  let idLower := lowerStr idUpper
  let byText := getByTextExact page idUpper
  let step1 : Option Nat :=
    if isVisibleL page byText then
      match byText.head? with
      | some b =>
        let parentHit : Option Nat :=
          match tryLocator page ((ancestorChain page b).reverse.filter fun a =>
              (match nodeAt page a with | some m => m.tag == "a" | none => false)) with
          | some par =>
            (match nodeAt page par with
             | some pn => if hrefHasId pn.href idUpper idLower then some par else none
             | none => none)
          | none => none
        (match parentHit with
         | some x => some x
         | none =>
           match nodeAt page b with
           | some bn => if hrefHasId bn.href idUpper idLower then some b else none
           | none => none)
      | none => none
    else none
  match step1 with
  | some x => some x
  | none =>
    match tryLocator page (selAll page fun _ n =>
        n.dataIssueId == idUpper || n.dataIssueId == idLower) with
    | some x => some x
    | none =>
      issueLinkLoop page idUpper idLower
        (selAll page fun _ n => n.tag == "a" && strContains n.href "/issue/")

/-- ElementFinder.findStatusWithIssueNavigation. The click on the
found issue link mutates only the live page and is not reflected by a
static page value. -/
def findStatusWithIssueNavigation (page : DomPage) (target : String) : Option Nat :=
  let viaIssue : Option Nat :=
    match issueIdAnywhere target with
    | some issueId =>
      (match findIssue page issueId with
       | some _ =>
         (match tryLocator page (getByRolePred page "button" fun s =>
             ciContains s "status" || ciContains s "todo" || ciContains s "in progress" ||
             ciContains s "done" || ciContains s "backlog") with
          | some sb => some sb
          | none => findStatusField page)
       | none => none)
    | none => none
  match viaIssue with
  | some x => some x
  | none =>
    match tryLocator page (getByRoleCi page "button" "status") with
    | some sb => some sb
    | none => findStatusField page

/-- ElementFinder.findElement: the full priority cascade.
(fallbackFind is a separate executor-side last resort outside this
cascade and outside the claims; it is not modelled.) -/
def findElement (page : DomPage) (target : String) : Option Nat :=
  if titlePattern target then findTitleField page
  else
    match (if descPattern target && !addDescPattern target
           then findDescriptionField page else none) with
    | some d => some d
    | none =>
      if commentPattern target then findCommentField page
      else if statusNavPattern target then findStatusWithIssueNavigation page target
      else if assignPattern target then findAssigneeField page
      else if statusFieldBranch target then findStatusField page
      else
        match issueIdAnchored target with
        | some issueId => findIssue page issueId
        | none =>
          match (if notifPattern target then findByPatterns page notificationPatterns
                 else none) with
          | some x => some x
          | none =>
            match findInDialog page target with
            | some dr => some ((resolveLabelToInput page dr).getD dr)
            | none =>
              match genericFirstHit page target with
              | some r => some ((resolveLabelToInput page r).getD r)
              | none => none

/-! ## Spec-side predicates for the stuck predicate (claim C3) -/

/-- The three entries share one action target and one action type. -/
def sameTargetAndType (a b c : HEntry) : Bool :=
  b.action.target == a.action.target && c.action.target == a.action.target &&
  b.action.type == a.action.type && c.action.type == a.action.type

/-- An entry carries a not-found signal in its description or its
action reasoning. -/
def notFoundSignal (e : HEntry) : Bool :=
  ciContains e.description "not found" || ciContains e.action.reasoning "not found"

/-- The stuck predicate exactly as the claim words it: the last three
entries share target and type with progress values all within 5 of
each other (pairwise), or all three carry a not-found signal; false
when fewer than three entries exist. -/
def stuckSpecClaimed (history : List HEntry) : Bool :=
  match history.reverse with
  | c :: b :: a :: _ =>
    (sameTargetAndType a b c &&
     decide ((a.progressAssessment - b.progressAssessment).natAbs ≤ 5) &&
     decide ((a.progressAssessment - c.progressAssessment).natAbs ≤ 5) &&
     decide ((b.progressAssessment - c.progressAssessment).natAbs ≤ 5)) ||
    (notFoundSignal a && notFoundSignal b && notFoundSignal c)
  | _ => false

/-- The stuck predicate as amended: the progress comparison is between
each of the last three entries and the earliest of the three, strictly
below 5 (not pairwise within 5). -/
def stuckSpecAmended (history : List HEntry) : Bool :=
  match history.reverse with
  | c :: b :: a :: _ =>
    (sameTargetAndType a b c &&
     decide ((b.progressAssessment - a.progressAssessment).natAbs < 5) &&
     decide ((c.progressAssessment - a.progressAssessment).natAbs < 5)) ||
    (notFoundSignal a && notFoundSignal b && notFoundSignal c)
  | _ => false

/-! ## Concrete scenarios used by the counterexamples and witnesses -/

/-- A repeated click decision whose descriptions never carry the
recovery tag or a not-found signal. -/
def c1Decision : GPTResponse :=
  { stateDescription := "looping on the same view",
    nextAction :=
      { type := "click", target := "Status badge of DEE-9", value := none,
        reasoning := "retrying the badge" },
    isKeyState := false, progressAssessment := 50 }

/-- An oracle that always answers with the repeated click decision. -/
def c1Oracle : Nat → Except String GPTResponse := fun _ => .ok c1Decision

/-- A run against that oracle: long enough for four stuck detections. -/
def c1Run : RunResult := runAgent "open the issue" 100 c1Oracle 13

/-- The repeated action of the recovery-tagged stuck history. -/
def c2Action : ActionDecision :=
  { type := "click", target := "Save", value := none, reasoning := "saving" }

/-- A stuck history all of whose entries already carry the recovery
tag in their descriptions. -/
def c2H : List HEntry :=
  [{ step := 0, action := c2Action, description := "repeat RECOVERY_MODE",
     progressAssessment := 40, isKeyState := false },
   { step := 1, action := c2Action, description := "repeat RECOVERY_MODE",
     progressAssessment := 40, isKeyState := false },
   { step := 2, action := c2Action, description := "repeat RECOVERY_MODE",
     progressAssessment := 40, isKeyState := false }]

/-- A stuck history with no recovery tags. -/
def c2wH : List HEntry :=
  [{ step := 0, action := c2Action, description := "no progress",
     progressAssessment := 40, isKeyState := false },
   { step := 1, action := c2Action, description := "no progress",
     progressAssessment := 40, isKeyState := false },
   { step := 2, action := c2Action, description := "no progress",
     progressAssessment := 40, isKeyState := false }]

/-- The repeated action of the progress-spread stuck history. -/
def c3Action : ActionDecision :=
  { type := "click", target := "X", value := none, reasoning := "r" }

/-- Three trailing entries with one action and progress values 10, 6
and 14: each within 5 of the first, but 6 and 14 are 8 apart. -/
def c3H : List HEntry :=
  [{ step := 0, action := c3Action, description := "ok",
     progressAssessment := 10, isKeyState := false },
   { step := 1, action := c3Action, description := "ok",
     progressAssessment := 6, isKeyState := false },
   { step := 2, action := c3Action, description := "ok",
     progressAssessment := 14, isKeyState := false }]

/-- A visible label that the assignee pattern bucket matches through
its aria-label, with an associated input next to it. -/
def c4Label : DomNode :=
  { tag := "label", ariaLabel := "assign", forAttr := "assignee-input",
    text := "Assignee" }

/-- The input associated with that label. -/
def c4Input : DomNode := { tag := "input", idAttr := "assignee-input" }

/-- The two-node page of the label counterexample. -/
def c4Page : DomPage := [c4Label, c4Input]

/-- A visible label with plain text and an associated input, matched by
the generic exact-text strategy. -/
def c4wLabel : DomNode := { tag := "label", text := "Hello", forAttr := "name-input" }

/-- The input associated with that label. -/
def c4wInput : DomNode := { tag := "input", idAttr := "name-input" }

/-- The two-node page of the label-resolution witness. -/
def c4wPage : DomPage := [c4wLabel, c4wInput]

/-- A raw oracle response whose progressAssessment is 150 and whose
isKeyState is a string rather than a boolean. -/
def c5Raw : RawResponse :=
  { stateDescription := some "a form is open",
    nextAction := some { type := some "click", target := some "Submit",
                         value := none, reasoning := some "submit the form" },
    isKeyState := some (.jstr "yes"),
    progressAssessment := some (.jnum 150) }

/-- A history holding exactly one typed-title entry. -/
def c6History : List HEntry :=
  [{ step := 0,
     action := { type := "type", target := "Issue title", value := some "Bug 42",
                 reasoning := "typing the title" },
     description := "typed the title", progressAssessment := 50, isKeyState := false }]

/-- A premature complete decision from the oracle. -/
def c6Complete : GPTResponse :=
  { stateDescription := "issue created",
    nextAction := { type := "complete", target := "Task", value := none,
                    reasoning := "looks complete" },
    isKeyState := false, progressAssessment := 90 }

/-- A compound create-and-assign task that also mentions a description. -/
def c6Task : String := "create a ticket with a description and assign it to yourself"

/-- A compound create-and-assign task without a description request. -/
def c6wTask : String := "create and assign to yourself"

/-- A page whose browser-side extraction throws. -/
def c9Page : PageFx :=
  { evalResult := .error "Execution context was destroyed",
    titleResult := .ok "My Page", urlResult := .ok "https://app.example/x" }

/-- A page whose url read throws inside the login check. -/
def c10Page : AuthPage :=
  { url := .error "Target page closed",
    loginButtonCount := .ok 0, linearWorkspaceCount := .ok 1,
    notionSidebarCount := .ok 0, notionContentCount := .ok 0,
    asanaSidebarCount := .ok 0, asanaTaskCount := .ok 0 }

/-- A Linear page whose workspace-indicator count rejects after the
un-awaited checkLinearAuth promise has already been returned from the
try block. -/
def c10CrashPage : AuthPage :=
  { url := .ok "https://linear.app/workspace",
    loginButtonCount := .ok 0, linearWorkspaceCount := .error "Target page closed",
    notionSidebarCount := .ok 0, notionContentCount := .ok 0,
    asanaSidebarCount := .ok 0, asanaTaskCount := .ok 0 }

/-! ## Bookkeeping predicates for the history invariant (claim C7) -/

/-- The steps of the entries are k, k+1, k+2, ... in order. -/
def stepsFromB (k : Nat) : List HEntry → Bool
  | [] => true
  | e :: rest => e.step == k && stepsFromB (k + 1) rest

/-- Entry i carries step value i: the density invariant. -/
def stepsDenseB (h : List HEntry) : Bool := stepsFromB 0 h

/-- An append event is monotone: the appended entry carries a step
value strictly greater than every step already present. -/
def appendOkB (pe : List HEntry × HEntry) : Bool :=
  pe.1.all fun e => decide (e.step < pe.2.step)

/-! ## Helper lemmas -/

theorem stepsFromB_append (l : List HEntry) (e : HEntry) :
    ∀ k, stepsFromB k (l ++ [e]) = (stepsFromB k l && (e.step == k + l.length)) := by
  induction l with
  | nil => intro k; simp [stepsFromB]
  | cons x xs ih =>
    intro k
    have harith : k + 1 + xs.length = k + (xs.length + 1) := by omega
    simp only [List.cons_append, List.append_eq, stepsFromB, ih (k + 1), List.length_cons,
      harith, Bool.and_assoc]

theorem stepsFromB_take (l : List HEntry) :
    ∀ k m, stepsFromB k l = true → stepsFromB k (l.take m) = true := by
  induction l with
  | nil => intro k m _; simp [stepsFromB]
  | cons x xs ih =>
    intro k m h
    cases m with
    | zero => simp [stepsFromB]
    | succ m =>
      simp only [stepsFromB, Bool.and_eq_true] at h
      simp only [List.take_succ_cons, stepsFromB, Bool.and_eq_true]
      exact ⟨h.1, ih (k + 1) m h.2⟩

theorem tagLast_stepsFromB (l : List HEntry) :
    ∀ k, stepsFromB k (tagLast l) = stepsFromB k l := by
  induction l with
  | nil => intro k; simp [tagLast]
  | cons x xs ih =>
    intro k
    cases xs with
    | nil => simp [tagLast, stepsFromB]
    | cons y ys => simp only [tagLast, stepsFromB, ih (k + 1)]

theorem tagLast_length (l : List HEntry) : (tagLast l).length = l.length := by
  induction l with
  | nil => simp [tagLast]
  | cons x xs ih =>
    cases xs with
    | nil => simp [tagLast]
    | cons y ys => simpa [tagLast] using ih

theorem tagLast_take (l : List HEntry) :
    ∀ k, k < l.length → (tagLast l).take k = l.take k := by
  induction l with
  | nil => intro k hk; simp at hk
  | cons x xs ih =>
    intro k hk
    cases xs with
    | nil =>
      simp only [List.length_cons, List.length_nil] at hk
      have hk0 : k = 0 := by omega
      subst hk0
      simp
    | cons y ys =>
      cases k with
      | zero => simp
      | succ k =>
        simp only [tagLast, List.take_succ_cons]
        rw [ih k (by simp only [List.length_cons] at hk ⊢; omega)]

theorem stepsFromB_mem_lt (l : List HEntry) :
    ∀ k, stepsFromB k l = true → ∀ e ∈ l, e.step < k + l.length := by
  induction l with
  | nil => intro k _ e he; simp at he
  | cons x xs ih =>
    intro k h e he
    simp only [stepsFromB, Bool.and_eq_true, beq_iff_eq] at h
    rcases List.mem_cons.mp he with rfl | hmem
    · simp only [List.length_cons, h.1]; omega
    · have := ih (k + 1) h.2 e hmem
      simp only [List.length_cons]
      omega

theorem detect_backtrack_inv (h t : List HEntry)
    (heq : detectAndHandleStuckState h = .backtrack t) :
    t = tagLast h ∧ 2 ≤ h.length ∧ isStuck h = true ∧ countRecovery h < 3 := by
  unfold detectAndHandleStuckState at heq
  split_ifs at heq with h1 h2 h3
  all_goals first
    | (injection heq with heq2
       exact ⟨heq2.symm, by assumption, by simpa using h1, by omega⟩)
    | injection heq

theorem detect_fatalMax_inv (h : List HEntry)
    (heq : detectAndHandleStuckState h = .fatalMaxRecovery) :
    3 ≤ countRecovery h := by
  unfold detectAndHandleStuckState at heq
  split_ifs at heq with h1 h2 h3
  all_goals first | assumption | injection heq

theorem countRecovery_eq_zero (h : List HEntry)
    (hf : ∀ e ∈ h, strContains e.description "RECOVERY_MODE" = false) :
    countRecovery h = 0 := by
  unfold countRecovery
  rw [List.length_eq_zero, List.filter_eq_nil_iff]
  intro e he
  simp [hf e he]

theorem refineDecision_stateDescription (decision : GPTResponse)
    (history : List HEntry) (task : String) :
    (refineDecision decision history task).stateDescription = decision.stateDescription := by
  simp only [refineDecision]
  repeat first | rfl | split

theorem runLoop_dense (task : String) (maxSteps : Nat)
    (oracle : Nat → Except String GPTResponse) :
    ∀ fuel st, stepsDenseB st.history = true → st.step = st.history.length →
      ((runLoop task maxSteps oracle fuel st).snapshots.all stepsDenseB = true ∧
       (runLoop task maxSteps oracle fuel st).appendEvents.all appendOkB = true) := by
  intro fuel
  induction fuel with
  | zero => intro st h1 h2; simp [runLoop]
  | succ fuel ih =>
    intro st h1 h2
    rw [runLoop]
    split
    · simp
    · split
      · simp
      · split
        · simp
        · simp
        · next tagged heq =>
          obtain ⟨htag, hlen2, _, _⟩ := detect_backtrack_inv _ _ heq
          subst htag
          have hdense2 : stepsDenseB (backtrackState st (tagLast st.history)).history = true := by
            simp only [backtrackState, spliceLastTwo]
            exact stepsFromB_take _ 0 _ (by rw [tagLast_stepsFromB]; exact h1)
          obtain ⟨ihs, iha⟩ := ih (backtrackState st (tagLast st.history)) hdense2 rfl
          simp only [List.all_cons, Bool.and_eq_true]
          exact ⟨⟨hdense2, ihs⟩, iha⟩
        · next heq =>
          split
          · simp
          · next raw heq2 =>
            set decision := refineDecision raw st.history task with hdec
            set entry : HEntry :=
              { step := st.step, action := decision.nextAction,
                description := decision.stateDescription,
                progressAssessment := decision.progressAssessment,
                isKeyState := decision.isKeyState } with hentry
            have hstep : entry.step = st.history.length := h2
            have hdense2 : stepsDenseB (st.history ++ [entry]) = true := by
              rw [stepsDenseB, stepsFromB_append, Bool.and_eq_true]
              exact ⟨h1, by simp [hstep, h2]⟩
            have happ : appendOkB (st.history, entry) = true := by
              rw [appendOkB, List.all_eq_true]
              intro e he
              have := stepsFromB_mem_lt st.history 0 h1 e he
              simp only [decide_eq_true_eq]
              omega
            obtain ⟨ihs, iha⟩ := ih
              { history := st.history ++ [entry], step := st.step + 1,
                complete := (decision.nextAction.type == "complete") ||
                  (if decision.nextAction.type == "complete" then false
                   else checkImplicitCompletion task decision st.history),
                calls := st.calls + 1 }
              hdense2 (by simp [h2])
            simp only [List.all_cons, Bool.and_eq_true]
            exact ⟨⟨hdense2, ihs⟩, ⟨happ, iha⟩⟩

theorem runLoop_no_recovery_termination (task : String) (maxSteps : Nat)
    (oracle : Nat → Except String GPTResponse)
    (horacle : ∀ n r, oracle n = .ok r →
      strContains r.stateDescription "RECOVERY_MODE" = false) :
    ∀ fuel st, (∀ e ∈ st.history, strContains e.description "RECOVERY_MODE" = false) →
      (runLoop task maxSteps oracle fuel st).outcome ≠ .fatalMaxRecovery := by
  intro fuel
  induction fuel with
  | zero => intro st _; simp [runLoop]
  | succ fuel ih =>
    intro st hfree
    rw [runLoop]
    split
    · simp
    · split
      · simp
      · split
        · next heq =>
          exfalso
          have h3 := detect_fatalMax_inv _ heq
          rw [countRecovery_eq_zero _ hfree] at h3
          omega
        · simp
        · next tagged heq =>
          obtain ⟨htag, hlen2, _, _⟩ := detect_backtrack_inv _ _ heq
          subst htag
          have hfree2 : ∀ e ∈ (backtrackState st (tagLast st.history)).history,
              strContains e.description "RECOVERY_MODE" = false := by
            intro e he
            simp only [backtrackState, spliceLastTwo, tagLast_length] at he
            rw [tagLast_take st.history (st.history.length - 2) (by omega)] at he
            exact hfree e (List.take_subset _ _ he)
          exact ih (backtrackState st (tagLast st.history)) hfree2
        · next heq =>
          split
          · simp
          · next raw heq2 =>
            apply ih
            intro e he
            rcases List.mem_append.mp he with hmem | hlast
            · exact hfree e hmem
            · have he2 : e.description =
                  (refineDecision raw st.history task).stateDescription := by
                rcases List.mem_singleton.mp hlast with rfl
                rfl
              rw [he2, refineDecision_stateDescription]
              exact horacle st.calls raw heq2

theorem isStuck_eq_amended (h : List HEntry) : isStuck h = stuckSpecAmended h := by
  rcases hr : h.reverse with _ | ⟨c, _ | ⟨b, _ | ⟨a, t⟩⟩⟩
  · have hh : h = [] := by simpa using congrArg List.reverse hr
    subst hh; rfl
  · have hh : h = [c] := by simpa using congrArg List.reverse hr
    subst hh; rfl
  · have hh : h = [b, c] := by simpa using congrArg List.reverse hr
    subst hh; rfl
  · have hh : h = t.reverse ++ [a, b, c] := by
      have h2 := congrArg List.reverse hr
      rw [List.reverse_reverse] at h2
      simpa using h2
    subst hh
    have hlen : (t.reverse ++ [a, b, c]).length = t.length + 3 := by simp
    have hdrop : (t.reverse ++ [a, b, c]).drop ((t.reverse ++ [a, b, c]).length - 3) =
        [a, b, c] := by
      rw [hlen]
      have h3 : t.length + 3 - 3 = t.reverse.length := by simp
      rw [h3, List.drop_left]
    rw [isStuck, stuckSpecAmended]
    rw [if_neg (by rw [hlen]; omega)]
    rw [hdrop]
    simp only [List.reverse_append, List.reverse_cons, List.reverse_nil, List.nil_append,
      List.cons_append, List.append_nil, List.all_cons, List.all_nil, Bool.and_true,
      sameTargetAndType, notFoundSignal]
    rw [Bool.eq_iff_iff]
    simp only [Bool.and_eq_true, Bool.or_eq_true, beq_iff_eq, decide_eq_true_eq,
      sub_self, Int.natAbs_zero, eq_self_iff_true, true_and, and_true]
    simp only [Nat.zero_lt_succ, true_and, Nat.lt_irrefl]
    constructor
    · intro hx
      tauto
    · intro hx
      tauto

theorem sanitizeProgress_bounds (pa : Option JVal) :
    0 ≤ (sanitizeProgress pa).1 ∧ (sanitizeProgress pa).1 ≤ 100 := by
  rcases pa with _ | jv
  · simp [sanitizeProgress]
  · cases jv with
    | jnum n =>
      simp only [sanitizeProgress]
      by_cases h1 : n < 0
      · rw [if_pos (by simp [h1])]
        simp
      · by_cases h2 : 100 < n
        · rw [if_pos (by simp [h2])]
          simp
        · rw [if_neg (by simp [h1, h2])]
          dsimp only
          omega
    | jstr s => simp [sanitizeProgress]
    | jbool b => simp [sanitizeProgress]
    | jnull => simp [sanitizeProgress]

theorem sanitizeProgress_invalid (pa : Option JVal) (hv : validNumJV pa = false) :
    sanitizeProgress pa = (0, true) := by
  rcases pa with _ | jv
  · rfl
  · cases jv with
    | jnum n =>
      simp only [validNumJV, Bool.and_eq_false_iff, decide_eq_false_iff_not, not_le] at hv
      rcases hv with h | h
      · rw [sanitizeProgress, if_pos (by simp; omega)]
      · rw [sanitizeProgress, if_pos (by simp; omega)]
    | jstr s => rfl
    | jbool b => rfl
    | jnull => rfl

theorem coerceKeyState_false (ks : Option JVal) (hb : boolJV ks = false) :
    coerceKeyState ks = false := by
  rcases ks with _ | jv
  · rfl
  · cases jv with
    | jbool b => cases hb
    | jnum n => rfl
    | jstr s => rfl
    | jnull => rfl

theorem any_title_to_created (history : List HEntry)
    (h : (history.any fun e =>
      e.action.type == "type" && ciContains e.action.target "title") = true) :
    (history.any fun e => e.action.type == "type" &&
      (ciContains e.action.target "title" || ciContains e.action.target "issue")) = true := by
  simp only [List.any_eq_true, Bool.and_eq_true, Bool.or_eq_true] at *
  obtain ⟨x, hx, h1, h2⟩ := h
  exact ⟨x, hx, h1, Or.inl h2⟩

/-! ## Claim theorems -/

/-- C1 (counterexample): the claim says the 4th detected stuck state
(3 prior recoveries already tagged) terminates the run as failed. In a
run against an oracle that repeats one stagnant click forever, at
least four stuck states are detected and the run is never terminated
by the recovery ceiling: each backtrack discards the entry that was
just tagged, so the tag count never reaches 3. -/
theorem c1_counterexample :
    4 ≤ c1Run.stuckDetections ∧ c1Run.outcome ≠ Outcome.fatalMaxRecovery :=
  ⟨by decide, by decide⟩

/-- C1 (amended): recovery attempts are counted by the recovery tag in
history descriptions, and a detection with 3 tags present would
terminate the run; but the backtrack discards the entry that was just
tagged, so as long as the oracle never emits the tag itself, no run is
ever terminated by the recovery ceiling - every detected stuck state
with history.length at least 2 backtracks and the run continues. -/
theorem c1_recovery_ceiling_unreachable (task : String) (maxSteps : Nat)
    (oracle : Nat → Except String GPTResponse) (fuel : Nat)
    (horacle : ∀ n r, oracle n = .ok r →
      strContains r.stateDescription "RECOVERY_MODE" = false) :
    (runAgent task maxSteps oracle fuel).outcome ≠ .fatalMaxRecovery :=
  runLoop_no_recovery_termination task maxSteps oracle horacle fuel ⟨[], 0, false, 0⟩
    (fun e he => absurd he (List.not_mem_nil e))

/-- C1 (witness): the amended theorem applied to the concrete
repeating oracle. -/
theorem c1_witness :
    (runAgent "open the issue" 100 c1Oracle 13).outcome ≠ Outcome.fatalMaxRecovery :=
  c1_recovery_ceiling_unreachable "open the issue" 100 c1Oracle 13
    (fun n r hr => by
      have hr2 : (Except.ok c1Decision : Except String GPTResponse) = .ok r := hr
      injection hr2 with h2
      rw [← h2]
      decide)

/-- C2 (counterexample): the claim says every stuck detection with
history.length at least 2 backtracks; but the recovery-ceiling check
runs first, so a stuck history of length 3 whose descriptions already
carry 3 recovery tags is terminated, not backtracked. -/
theorem c2_counterexample :
    isStuck c2H = true ∧ 2 ≤ c2H.length ∧
    detectAndHandleStuckState c2H = StuckSignal.fatalMaxRecovery :=
  ⟨by decide, by decide, by decide⟩

/-- C2 (amended): whenever a stuck state is detected with fewer than 3
recovery-tagged entries: with history.length at least 2 the handler
requests a backtrack, which removes exactly the last 2 entries (the
result is the length-2-shorter prefix, so it never removes more than
exist) and sets step to the new history length; with history.length
below 2 the backtrack is refused and the run aborts. -/
theorem c2_backtrack_semantics (h : List HEntry)
    (hs : isStuck h = true) (hc : countRecovery h < 3) :
    (2 ≤ h.length →
      detectAndHandleStuckState h = .backtrack (tagLast h) ∧
      spliceLastTwo (tagLast h) = h.take (h.length - 2) ∧
      (spliceLastTwo (tagLast h)).length + 2 = h.length ∧
      (∀ s c k, (backtrackState ⟨h, s, c, k⟩ (tagLast h)).step =
        (backtrackState ⟨h, s, c, k⟩ (tagLast h)).history.length)) ∧
    (h.length < 2 → detectAndHandleStuckState h = .fatalCannotBacktrack) := by
  constructor
  · intro hlen
    refine ⟨?_, ?_, ?_, fun s c k => rfl⟩
    · unfold detectAndHandleStuckState
      rw [if_neg (by simp [hs]), if_neg (by omega), if_pos hlen]
    · unfold spliceLastTwo
      rw [tagLast_length]
      exact tagLast_take h (h.length - 2) (by omega)
    · unfold spliceLastTwo
      rw [tagLast_length, List.length_take, tagLast_length, Nat.min_eq_left (by omega)]
      omega
  · intro hlen
    unfold detectAndHandleStuckState
    rw [if_neg (by simp [hs]), if_neg (by omega), if_neg (by omega)]

/-- C2 (witness): the amended theorem applied to a concrete untagged
stuck history of length 3. -/
theorem c2_witness :
    detectAndHandleStuckState c2wH = StuckSignal.backtrack (tagLast c2wH) ∧
    spliceLastTwo (tagLast c2wH) = c2wH.take (c2wH.length - 2) ∧
    (spliceLastTwo (tagLast c2wH)).length + 2 = c2wH.length := by
  have h := (c2_backtrack_semantics c2wH (by decide) (by decide)).1 (by decide)
  exact ⟨h.1, h.2.1, h.2.2.1⟩

/-- C3 (counterexample): three trailing entries with one action and
progress values 10, 6 and 14 are stuck for the code (each value is
within 5 of the first), but not for the claim as stated (6 and 14 are
8 apart, so the progress values are not all within 5 of each other). -/
theorem c3_counterexample : isStuck c3H = true ∧ stuckSpecClaimed c3H = false :=
  ⟨by decide, by decide⟩

/-- C3 (amended): the stuck predicate is true exactly when the last 3
entries share the earliest of the three entries target and type with
each of the two later progress values differing from the earliest one
by strictly less than 5, or all 3 carry a not-found signal in their
description or their action reasoning; in particular it is false for
every history of length below 3. -/
theorem c3_stuck_characterization (h : List HEntry) : isStuck h = stuckSpecAmended h :=
  isStuck_eq_amended h

/-- C4 (counterexample): the claim says resolving any label node must
yield its associated input or NotFound, never the label itself. On a
page holding a visible label with aria-label "assign" and its
for-associated input, the target "assignee" routes to the specialized
assignee pattern bucket, whose aria-label pattern returns the label
node itself as the final handle - even though the associated input
exists and the label-to-input resolver would find it. -/
theorem c4_counterexample :
    findElement c4Page "assignee" = some 0 ∧
    (nodeAt c4Page 0).map DomNode.tag = some "label" ∧
    resolveLabelToInput c4Page 0 = some 1 ∧
    findElement c4Page "assignee" ≠ none ∧
    findElement c4Page "assignee" ≠ resolveLabelToInput c4Page 0 :=
  ⟨by decide, by decide, by decide, by decide, by decide⟩

/-- C4 (amended): label re-resolution applies only in the dialog and
generic-strategy branches of the cascade. When no specialized guard
matches the target, no dialog search hits, and the first generic
strategy hit is r, the final result is the label-associated input of r
(for-attribute, then nested input, then next input in document order)
when r is a label with such an input, and r itself otherwise;
specialized field-intent finders return their hit without label
re-resolution. -/
theorem c4_label_resolution (page : DomPage) (target : String)
    (h1 : titlePattern target = false)
    (h2 : descPattern target = false)
    (h3 : commentPattern target = false)
    (h4 : statusNavPattern target = false)
    (h5 : assignPattern target = false)
    (h6 : statusFieldBranch target = false)
    (h7 : issueIdAnchored target = none)
    (h8 : notifPattern target = false)
    (h9 : findInDialog page target = none)
    (r : Nat) (hr : genericFirstHit page target = some r) :
    findElement page target = some ((resolveLabelToInput page r).getD r) := by
  unfold findElement
  rw [if_neg (by simp [h1])]
  rw [show (if descPattern target && !addDescPattern target
            then findDescriptionField page else none) = none by simp [h2]]
  rw [if_neg (by simp [h3])]
  rw [if_neg (by simp [h4])]
  rw [if_neg (by simp [h5])]
  rw [if_neg (by simp [h6])]
  rw [h7]
  rw [show (if notifPattern target then findByPatterns page notificationPatterns
            else none) = none by simp [h8]]
  rw [h9, hr]

/-- C4 (witness): on a page holding a visible label with text Hello
and its for-associated input, the generic exact-text strategy hits the
label and the final result is the associated input. -/
theorem c4_witness : findElement c4wPage "Hello" = some 1 := by
  have h := c4_label_resolution c4wPage "Hello" (by decide) (by decide) (by decide)
    (by decide) (by decide) (by decide) (by decide) (by decide) (by decide) 0 (by decide)
  rw [h]
  decide

/-- C5: every successfully validated oracle response stores a
progressAssessment inside [0,100]; when the raw field is not a number
inside [0,100] the stored value is 0 and the warning was logged; when
the raw isKeyState is not a boolean the stored value is false. -/
theorem c5_progress_clamped (data : RawResponse) (res : GPTResponse) (warned : Bool)
    (hok : validateResponse data = .ok (res, warned)) :
    (0 ≤ res.progressAssessment ∧ res.progressAssessment ≤ 100) ∧
    (validRawProgress data = false → res.progressAssessment = 0 ∧ warned = true) ∧
    (boolRawKeyState data = false → res.isKeyState = false) := by
  rcases data with ⟨sd, na0, ks, pa⟩
  cases na0 with
  | none => exact absurd hok (by simp [validateResponse])
  | some na =>
    simp only [validateResponse] at hok
    by_cases hft : (falsyStr na.type || falsyStr na.target) = true
    · rw [if_pos hft] at hok; exact absurd hok (by simp)
    · rw [if_neg hft] at hok
      have h2 := Except.ok.inj hok
      cases h2
      refine ⟨sanitizeProgress_bounds pa, fun hv => ?_, fun hb => ?_⟩
      · have h3 := sanitizeProgress_invalid pa (by simpa [validRawProgress] using hv)
        constructor
        · show (sanitizeProgress pa).1 = 0
          rw [h3]
        · show (sanitizeProgress pa).2 = true
          rw [h3]
      · show coerceKeyState ks = false
        exact coerceKeyState_false ks (by simpa [boolRawKeyState] using hb)

/-- C5 (witness): a raw response with progressAssessment 150 and a
string isKeyState validates to a stored progress of 0 with the warning
logged and isKeyState false. -/
theorem c5_witness : ∃ res warned, validateResponse c5Raw = .ok (res, warned) ∧
    (0 ≤ res.progressAssessment ∧ res.progressAssessment ≤ 100) ∧
    res.progressAssessment = 0 ∧ warned = true ∧ res.isKeyState = false := by
  obtain ⟨h1, h2, h3⟩ := c5_progress_clamped c5Raw
    { stateDescription := "a form is open",
      nextAction := { type := "click", target := "Submit", value := none,
                      reasoning := "submit the form" },
      isKeyState := false, progressAssessment := 0 } true rfl
  exact ⟨_, _, rfl, h1, (h2 (by decide)).1, (h2 (by decide)).2, h3 (by decide)⟩

/-- C6 (counterexample): the claim says that for any create-and-assign
task, a premature complete with a typed title and no assignment is
rewritten to a click on an assignee-related target; but when the task
also mentions a description, the earlier description rule fires first
and rewrites the complete to a click on Add description instead. -/
theorem c6_counterexample :
    strContains (lowerStr c6Task) "create" = true ∧
    strContains (lowerStr c6Task) "assign" = true ∧
    strContains (lowerStr c6Task) "and" = true ∧
    (c6History.any fun h =>
      h.action.type == "type" && ciContains h.action.target "title") = true ∧
    (c6History.any fun h => ciContains h.action.target "assign") = false ∧
    c6Complete.nextAction.type = "complete" ∧
    (refineDecision c6Complete c6History c6Task).nextAction.target = "Add description" ∧
    ciContains (refineDecision c6Complete c6History c6Task).nextAction.target "assign" =
      false :=
  ⟨by decide, by decide, by decide, by decide, by decide, by decide, by decide, by decide⟩

/-- C6 (amended): for a task containing create and assign joined by
and (or then), a complete decision with a typed-title entry in the
history and no entry whose target mentions assignment is rewritten to
a click on an assignee-related target - provided the premature
description rule does not apply first (the task does not request a
description still missing from the history). -/
theorem c6_assign_refinement (decision : GPTResponse) (history : List HEntry) (task : String)
    (hcreate : strContains (lowerStr task) "create" = true)
    (hassign : strContains (lowerStr task) "assign" = true)
    (hjoin : (strContains (lowerStr task) "and" || strContains (lowerStr task) "then") = true)
    (hcomplete : decision.nextAction.type = "complete")
    (htitle : (history.any fun h =>
      h.action.type == "type" && ciContains h.action.target "title") = true)
    (hnoassign : (history.any fun h => ciContains h.action.target "assign") = false)
    (hnodesc : strContains (lowerStr task) "description" = false ∨
      (history.any fun h =>
        h.action.type == "type" && ciContains h.action.target "description") = true) :
    (refineDecision decision history task).nextAction.type = "click" ∧
    ciContains (refineDecision decision history task).nextAction.target "assign" = true := by
  have hcreated := any_title_to_created history htitle
  have hrule1 : (decision.nextAction.type == "complete" &&
      (strContains (lowerStr task) "description" && strContains (lowerStr task) "create") &&
      (history.any fun h => h.action.type == "type" && ciContains h.action.target "title") &&
      !(history.any fun h =>
        h.action.type == "type" && ciContains h.action.target "description")) = false := by
    rcases hnodesc with h | h
    · simp [h]
    · simp [h]
  have hrule2 : (decision.nextAction.type == "complete" &&
      ((strContains (lowerStr task) "and" || strContains (lowerStr task) "then") &&
       strContains (lowerStr task) "create" && strContains (lowerStr task) "assign") &&
      (history.any fun h => h.action.type == "type" &&
        (ciContains h.action.target "title" || ciContains h.action.target "issue")) &&
      !(history.any fun h => ciContains h.action.target "assign")) = true := by
    simp [hcomplete, hjoin, hcreate, hassign, hcreated, hnoassign]
  simp only [refineDecision]
  rw [if_neg (by rw [hrule1]; simp)]
  rw [if_pos hrule2]
  refine ⟨rfl, ?_⟩
  show ciContains "Assignee field" "assign" = true
  decide

/-- C6 (witness): the amended theorem applied to the task
"create and assign to yourself" with a typed-title history. -/
theorem c6_witness :
    (refineDecision c6Complete c6History c6wTask).nextAction.type = "click" ∧
    ciContains (refineDecision c6Complete c6History c6wTask).nextAction.target "assign" =
      true :=
  c6_assign_refinement c6Complete c6History c6wTask (by decide) (by decide) (by decide)
    rfl (by decide) (by decide) (Or.inl (by decide))

/-- C7: at every inspection point of every run - after each append and
immediately after each backtrack - the history step values are dense
with no gaps (entry i carries step value i), and every appended entry
carries a step value strictly greater than every step value present in
the history at the moment of the append. -/
theorem c7_history_dense (task : String) (maxSteps : Nat)
    (oracle : Nat → Except String GPTResponse) (fuel : Nat) :
    (runAgent task maxSteps oracle fuel).snapshots.all stepsDenseB = true ∧
    (runAgent task maxSteps oracle fuel).appendEvents.all appendOkB = true :=
  runLoop_dense task maxSteps oracle fuel ⟨[], 0, false, 0⟩ rfl rfl

/-- C8: the derived maxSteps never exceeds the configured ceiling
(min of the ceiling and the plan estimate plus 3), and on any planning
failure the run proceeds with the configured default step budget -
createExecutionPlan is total, so planning failure never aborts the
run. -/
theorem c8_max_steps_ceiling (configMaxSteps : Int) (appName baseUrl : String)
    (planOutcome : Except String RawTaskPlan) :
    (createExecutionPlan configMaxSteps appName baseUrl planOutcome).maxSteps ≤
      configMaxSteps ∧
    (∀ e, planOutcome = .error e →
      (createExecutionPlan configMaxSteps appName baseUrl planOutcome).maxSteps =
        configMaxSteps) := by
  cases planOutcome with
  | ok raw =>
    refine ⟨?_, fun e he => by cases he⟩
    show min configMaxSteps ((validateTaskPlan raw).estimatedSteps + 3) ≤ configMaxSteps
    exact min_le_left _ _
  | error e => exact ⟨le_refl _, fun _ _ => rfl⟩

/-- C8 (witness): the theorem applied to a failed planning call with
ceiling 20. -/
theorem c8_witness :
    (createExecutionPlan 20 "linear" "https://linear.app" (.error "planning failed")).maxSteps
      = 20 ∧
    (createExecutionPlan 20 "linear" "https://linear.app"
      (.error "planning failed")).maxSteps ≤ 20 := by
  have h := c8_max_steps_ceiling 20 "linear" "https://linear.app" (.error "planning failed")
  exact ⟨h.2 "planning failed" rfl, h.1⟩

/-- C9: DOM extraction never throws - it is total over every
combination of page-effect outcomes; on an evaluation failure or an
empty or minimal result it returns the fallback, and the fallback is
the minimal one-element snapshot carrying just the page title and URL,
or the empty list when even the URL read fails. -/
theorem c9_extraction_fallback (p : PageFx) :
    (∀ e, p.evalResult = .error e → domExtract p = getFallbackDOM p) ∧
    (∀ s, p.evalResult = .ok s →
      (s == "" || s == "[]" || decide (s.length < 10)) = true →
      domExtract p = getFallbackDOM p) ∧
    ((∃ u, p.urlResult = .ok u ∧
        getFallbackDOM p = mkFallbackJson (fallbackTitle p) u) ∨
     (∃ e, p.urlResult = .error e ∧ getFallbackDOM p = "[]")) := by
  refine ⟨?_, ?_, ?_⟩
  · intro e he
    unfold domExtract
    rw [he]
  · intro s hs hw
    unfold domExtract
    rw [hs]
    dsimp only
    rw [if_pos hw]
  · cases hu : p.urlResult with
    | ok u =>
      refine Or.inl ⟨u, rfl, ?_⟩
      unfold getFallbackDOM
      rw [hu]
    | error e =>
      refine Or.inr ⟨e, rfl, ?_⟩
      unfold getFallbackDOM
      rw [hu]

/-- C9 (witness): the theorem applied to a page whose browser-side
evaluation throws while title and url still read. -/
theorem c9_witness :
    domExtract c9Page = mkFallbackJson "My Page" "https://app.example/x" := by
  have h := (c9_extraction_fallback c9Page).1 "Execution context was destroyed" rfl
  rw [h]
  rfl

/-- C10 (counterexample): the claim says isLoggedIn never throws and
returns false on any internal error. On a Linear page whose
workspace-indicator count rejects, the un-awaited
return this.checkLinearAuth(page) exits the try before the rejection
happens, the catch never sees it, and the isLoggedIn call itself
rejects with that error instead of returning false. -/
theorem c10_counterexample :
    isLoggedIn c10CrashPage = .error "Target page closed" ∧
    isLoggedIn c10CrashPage ≠ .ok false ∧
    isLoggedIn c10CrashPage ≠ .ok true :=
  ⟨rfl, fun h => Except.noConfusion h, fun h => Except.noConfusion h⟩

/-- C10 (amended): the session gate fails closed only for errors the
try block itself observes: an error in the url read or in the
login-button count makes isLoggedIn return false. The platform
specific checks are returned without await, so once the linear, notion
or asana branch is taken, the caller observes exactly that check's own
outcome - including its rejection, which bypasses the catch and
propagates. -/
theorem c10_login_error_paths (p : AuthPage) :
    (∀ e, p.url = .error e → isLoggedIn p = .ok false) ∧
    (∀ url, p.url = .ok url → isOnLoginPage url = false →
      ∀ e, p.loginButtonCount = .error e → isLoggedIn p = .ok false) ∧
    (∀ url n, p.url = .ok url → isOnLoginPage url = false →
      p.loginButtonCount = .ok n → ¬(0 < n) →
      strContains url "linear.app" = true →
      isLoggedIn p = checkLinearAuth p) ∧
    (∀ url n, p.url = .ok url → isOnLoginPage url = false →
      p.loginButtonCount = .ok n → ¬(0 < n) →
      strContains url "linear.app" = false →
      (strContains url "notion.so" || strContains url "notion.com") = true →
      isLoggedIn p = checkNotionAuth p) ∧
    (∀ url n, p.url = .ok url → isOnLoginPage url = false →
      p.loginButtonCount = .ok n → ¬(0 < n) →
      strContains url "linear.app" = false →
      (strContains url "notion.so" || strContains url "notion.com") = false →
      strContains url "asana.com" = true →
      isLoggedIn p = checkAsanaAuth p) := by
  refine ⟨?_, ?_, ?_, ?_, ?_⟩
  · intro e he
    unfold isLoggedIn isLoggedInBody
    rw [he]
  · intro url hu hlogin e he
    unfold isLoggedIn isLoggedInBody
    rw [hu]
    dsimp only
    rw [if_neg (by simp [hlogin]), he]
  · intro url n hu hlogin hb hn hlin
    unfold isLoggedIn isLoggedInBody
    rw [hu]
    dsimp only
    rw [if_neg (by simp [hlogin]), hb]
    dsimp only
    rw [if_neg hn, if_pos hlin]
  · intro url n hu hlogin hb hn hlin hnot
    unfold isLoggedIn isLoggedInBody
    rw [hu]
    dsimp only
    rw [if_neg (by simp [hlogin]), hb]
    dsimp only
    rw [if_neg hn, if_neg (by simp [hlin]), if_pos hnot]
  · intro url n hu hlogin hb hn hlin hnot has
    unfold isLoggedIn isLoggedInBody
    rw [hu]
    dsimp only
    rw [if_neg (by simp [hlogin]), hb]
    dsimp only
    rw [if_neg hn, if_neg (by simp [hlin]), if_neg (by simp [hnot]), if_pos has]

/-- C10 (witness): the amended theorem applied to the url-error page
(fails closed) and to the Linear page whose platform check rejects
(the caller observes the rejected check itself). -/
theorem c10_error_paths_witness :
    isLoggedIn c10Page = .ok false ∧
    isLoggedIn c10CrashPage = checkLinearAuth c10CrashPage := by
  constructor
  · exact (c10_login_error_paths c10Page).1 "Target page closed" rfl
  · exact (c10_login_error_paths c10CrashPage).2.2.1 "https://linear.app/workspace" 0
      rfl (by decide) rfl (by decide) (by decide)
